import Mathlib

/-!
Verification of the e-commerce order/cart/payment core.

Shallow embedding of the order, cart and payment operations of the
repository (`src/services/product.service.js` `OrderService`,
`src/services/cart.service.js` `CartService`) together with the
Mongoose model behavior they run through: the Order schema's
`orderStatus` enum and its pre-save stock-reservation and
`findOneAndUpdate` restock hooks, the Payment schema's required
`order` reference, strict-mode stripping of the service-supplied
top-level `amount`/`type` fields, and its pre-save hook that syncs the
order's status, and the Cart schema's pre-save validation of every
item against the live product catalog.  Document validation runs
before any user pre-save hook.  Money is modelled as `ℚ`, stock and
quantities as `ℤ`, identifiers as `ℕ`.  Fallible operations return
the (possibly partially mutated) store together with an `Except`: the
source performs no transactions, so mutations made before a throw
persist, and the embedding keeps them.
-/

namespace ECom

/-- Errors raised by the services and models: `AppError(message,
statusCode)` and `InventoryError(productId, requested, available)`
from `utils/AppError`, and Mongoose `ValidationError`s (mapped to 400
by the error controller). -/
inductive Err where
  | app (message : String) (statusCode : Nat)
  | inventory (productId : Nat) (requested available : ℤ)
  | validation (message : String)
deriving Repr, DecidableEq

/-- Product document: the Inventory Ledger carrier (`models/Product.js`). -/
structure Product where
  id : Nat
  name : String
  price : ℚ
  stock : ℤ
  sold : ℤ
  isActive : Bool
deriving Repr, DecidableEq

/-- Embedded order item (`orderItemSchema`). -/
structure OrderItem where
  product : Nat
  name : String
  quantity : ℤ
  price : ℚ
deriving Repr, DecidableEq

/-- Embedded payment info on an order (`paymentInfoSchema`). -/
structure PaymentInfo where
  method : String
  status : String
  amount : ℚ
  paidAmount : ℚ
deriving Repr, DecidableEq

/-- Order document (`orderSchema`).  `createdAt` is a millisecond
timestamp; `createdYear`/`createdMonth` embed `$year '$createdAt'` and
`$month '$createdAt'` as read by the aggregation pipelines. -/
structure Order where
  id : Nat
  user : Nat
  orderItems : List OrderItem
  orderStatus : String
  paymentInfo : PaymentInfo
  itemsPrice : ℚ
  totalPrice : ℚ
  paymentDue : ℚ
  isConfirmed : Bool
  isCanceled : Bool
  createdAt : ℤ
  createdYear : Nat
  createdMonth : Nat
deriving Repr, DecidableEq

/-- Payment document as the Payment schema actually persists it:
`order` (required), `user` (required), `status`.  The schema has no
top-level `amount` or `type` path — amounts live only inside the
optional `paymentDetails` subdocument, which the OrderService never
supplies — so strict mode silently drops the `amount` and `type`
fields every `Payment.create` call in the service passes. -/
structure Payment where
  id : Nat
  order : Nat
  user : Nat
  status : String
deriving Repr, DecidableEq

/-- Cart item (`models/Cart.js` item subdocument, fields used by the
cart service). -/
structure CartItem where
  productId : Nat
  name : String
  quantity : ℤ
  priceAtAddition : ℚ
deriving Repr, DecidableEq

/-- Cart document: owned by a registered user (`userId = some u`) or
anonymous (`none`). -/
structure Cart where
  id : Nat
  userId : Option Nat
  items : List CartItem
deriving Repr, DecidableEq

/-- The document store.  `nextPaymentId`/`nextOrderId` model the ids
the database would assign to newly created documents. -/
structure DB where
  products : List Product
  orders : List Order
  payments : List Payment
  nextPaymentId : Nat
  nextOrderId : Nat
deriving Repr, DecidableEq

/-- The `orderStatus` enum of the Order schema.  Note that it contains
neither `pending` (which `createOrder` passes) nor `refunded` (which
the Payment sync hook writes — unchecked, because query updates do
not run validators). -/
def orderStatusEnum : List String :=
  ["processing", "shipped", "delivered", "cancelled", "returned"]

/-- The `status` enum of the Payment schema. -/
def paymentStatusEnum : List String :=
  ["pending", "processing", "paid", "failed", "refunded", "disputed"]

/-- Embedding of `Order.findOne({ _id: orderId, user: userId })`: the
owner-scoped lookup used by `cancelOrder` and `completePayment`. -/
def findOrder (db : DB) (orderId userId : Nat) : Option Order :=
  db.orders.find? (fun o => o.id == orderId && o.user == userId)

/-- Embedding of `Product.findById`. -/
def findProduct (ps : List Product) (pid : Nat) : Option Product :=
  ps.find? (fun p => p.id == pid)

/-- Replace the product with the given id (single-document save). -/
def setProduct (ps : List Product) (p : Product) : List Product :=
  ps.map (fun q => if q.id == p.id then p else q)

/-- Replace the order with the given id.  Used for `order.save()` on
an existing document (the pre-save stock hook skips it because
`isNew` is false) and for applying a query update. -/
def setOrder (os : List Order) (o : Order) : List Order :=
  os.map (fun q => if q.id == o.id then o else q)

/-- The `orderSchema.pre('save')` stock-reservation hook, run once per
order item at order creation: looks the product up, fails 404 if
absent, raises `InventoryError` if `stock < quantity`, otherwise
decrements `stock` and increments `sold` and saves the product.
There is no rollback: on failure the products mutated by the earlier
items stay mutated, so the partially updated list is returned with
the error. -/
def reserveItems (ps : List Product) (items : List OrderItem) :
    List Product × Option Err :=
  match items with
  | [] => (ps, none)
  | item :: rest =>
    match findProduct ps item.product with
    | none => (ps, some (.app "Product not found" 404))
    | some p =>
      if p.stock < item.quantity then
        (ps, some (.inventory item.product item.quantity p.stock))
      else
        reserveItems
          (setProduct ps
            { p with stock := p.stock - item.quantity, sold := p.sold + item.quantity })
          rest

/-- The restock loop of the `orderSchema.pre('findOneAndUpdate')`
hook: per item, 404 if the product is missing, otherwise
`stock += quantity`, `sold -= quantity`.  Partial effects persist on
failure, as in `reserveItems`. -/
def restockItems (ps : List Product) (items : List OrderItem) :
    List Product × Option Err :=
  match items with
  | [] => (ps, none)
  | item :: rest =>
    match findProduct ps item.product with
    | none => (ps, some (.app "Product not found" 404))
    | some p =>
      restockItems
        (setProduct ps
          { p with stock := p.stock + item.quantity, sold := p.sold - item.quantity })
        rest

/-- Embedding of the `Order.findByIdAndUpdate(id, {'paymentInfo.status':
payStatus, orderStatus: newStatus})` issued by the Payment model's
pre-save sync hook.  The orderSchema `pre('findOneAndUpdate')` hook
runs first: it fails 404 when the order is missing, and restocks the
order's items only when the update sets `orderStatus` to `cancelled`
on a not-yet-cancelled order (the sync hook only ever sets
`processing` or `refunded`, so that branch never fires from it).  The
update itself runs without validators, so a value outside the
`orderStatus` enum — `refunded` — is written unchecked; a `none`
`newStatus` models the `undefined` mongoose strips from updates,
leaving `orderStatus` untouched. -/
def orderFindByIdAndUpdate (db : DB) (oid : Nat) (payStatus : String)
    (newStatus : Option String) : DB × Option Err :=
  match db.orders.find? (fun o => o.id == oid) with
  | none => (db, some (.app "Order not found" 404))
  | some order =>
    if newStatus = some "cancelled" ∧ ¬ order.orderStatus = "cancelled" then
      match restockItems db.products order.orderItems with
      | (ps, some e) => ({ db with products := ps }, some e)
      | (ps, none) =>
        let order2 :=
          { order with
              orderStatus := (newStatus.getD order.orderStatus),
              paymentInfo := { order.paymentInfo with status := payStatus } }
        ({ db with products := ps, orders := setOrder db.orders order2 }, none)
    else
      let order2 :=
        { order with
            orderStatus := (newStatus.getD order.orderStatus),
            paymentInfo := { order.paymentInfo with status := payStatus } }
      ({ db with orders := setOrder db.orders order2 }, none)

/-- Embedding of `Payment.create` through the Payment model.  Strict
mode drops the service-supplied top-level `amount` and `type` (not
schema paths), so they do not reach the document; validation —
which runs before any pre-save hook — requires the `order` reference
and an enum `status`; the `pre('save')` sync hook then runs
`Order.findByIdAndUpdate` mapping payment status `paid` to order
status `processing` and `refunded` to `refunded` (any other status
leaves `orderStatus` undefined in the update); finally the document
is inserted. -/
def paymentCreate (db : DB) (user : Nat) (orderRef : Option Nat)
    (amount : ℚ) (status : String) (type : String) :
    DB × Except Err Payment :=
  match orderRef with
  | none => (db, .error (.validation "Payment must belong to an order"))
  | some oid =>
    if ¬ status ∈ paymentStatusEnum then
      (db, .error (.validation "Invalid payment status"))
    else
      let newStatus : Option String :=
        if status = "paid" then some "processing"
        else if status = "refunded" then some "refunded"
        else none
      match orderFindByIdAndUpdate db oid status newStatus with
      | (db1, some e) => (db1, .error e)
      | (db1, none) =>
        let payment : Payment :=
          { id := db1.nextPaymentId, order := oid, user := user, status := status }
        ({ db1 with payments := db1.payments ++ [payment],
                    nextPaymentId := db1.nextPaymentId + 1 },
         .ok payment)

/-- Embedding of `Order.create`: document validation first —
`orderStatus` must belong to the schema enum, and validation runs
before any pre-save hook — then the stock-reservation hook, then the
insert. -/
def orderCreate (db : DB) (order : Order) : DB × Except Err Order :=
  if ¬ order.orderStatus ∈ orderStatusEnum then
    (db, .error (.validation "Invalid order status"))
  else
    match reserveItems db.products order.orderItems with
    | (ps, some e) => ({ db with products := ps }, .error e)
    | (ps, none) =>
      ({ db with products := ps, orders := db.orders ++ [order],
                 nextOrderId := db.nextOrderId + 1 },
       .ok order)

/-- The service-level loop after `Order.create`: for each item, fail
400 if the product is missing or inactive, otherwise apply
`$inc: { stock: -quantity, sold: quantity }` (no stock check, no
rollback of the items already processed). -/
def incLoop (ps : List Product) (items : List OrderItem) :
    List Product × Option Err :=
  match items with
  | [] => (ps, none)
  | item :: rest =>
    match findProduct ps item.product with
    | none => (ps, some (.app "Product not available" 400))
    | some p =>
      if p.isActive then
        incLoop
          (setProduct ps
            { p with stock := p.stock - item.quantity, sold := p.sold + item.quantity })
          rest
      else (ps, some (.app "Product not available" 400))

/-- Materialize the order items from a cart, as the cart branch of
`OrderService.createOrder` does: fail 400 per item if the product is
missing or inactive or has less stock than the cart quantity,
otherwise snapshot `(product, name, quantity, priceAtAddition)`. -/
def itemsFromCart (ps : List Product) (cart : Cart) :
    Except Err (List OrderItem) :=
  cart.items.mapM (fun item =>
    match findProduct ps item.productId with
    | none => .error (.app "Product not available" 400)
    | some product =>
      if !product.isActive then .error (.app "Product not available" 400)
      else if product.stock < item.quantity then
        .error (.app "Insufficient stock" 400)
      else
        .ok { product := product.id, name := product.name,
              quantity := item.quantity, price := item.priceAtAddition })

/-- Embedding of `OrderService.createOrder`.  `paymentInfoAmount` is
the caller-supplied payment info amount: the source destructures
`paymentInfo` from its argument and never reads it.  Sequence mirrors
the source: materialize items from the cart when none were passed
directly; compute the total and `initialPaymentAmount = totalAmount *
0.5`; `Payment.create` for the initial amount — created without the
required `order` reference, so the Payment model's validation rejects
it and the whole operation throws here, before the order or any stock
mutation exists.  The rest of the source's pipeline (Order.create
with `orderStatus: 'pending'`, which the Order enum would reject in
turn; the `$inc` loop; payment linking; cart deletion) is embedded
faithfully but is unreachable. -/
def createOrder (db : DB) (userId : Nat) (productsArg : List OrderItem)
    (cartId : Option Nat) (paymentInfoAmount : ℚ) (now : ℤ)
    (year month : Nat) (carts : List Cart) :
    DB × List Cart × Except Err Order :=
  let resolved : Except Err (List OrderItem) :=
    if productsArg.isEmpty then
      match cartId with
      | some cid =>
        match carts.find? (fun c => c.id == cid) with
        | none => .error (.app "Cart is empty or not found" 404)
        | some cart =>
          if cart.items.isEmpty then .error (.app "Cart is empty or not found" 404)
          else itemsFromCart db.products cart
      | none => .ok productsArg
    else .ok productsArg
  match resolved with
  | .error e => (db, carts, .error e)
  | .ok products =>
    if products.isEmpty then (db, carts, .error (.app "No products provided" 400))
    else
      let totalAmount : ℚ :=
        products.foldl (fun s item => s + item.price * (item.quantity : ℚ)) 0
      let initialPaymentAmount := totalAmount * (1 / 2 : ℚ)
      match paymentCreate db userId none initialPaymentAmount "paid" "initial" with
      | (db1, .error e) => (db1, carts, .error e)
      | (db1, .ok payment) =>
        let order : Order :=
          { id := db1.nextOrderId, user := userId, orderItems := products,
            orderStatus := "pending",
            paymentInfo :=
              { method := "card", status := "paid",
                amount := initialPaymentAmount,
                paidAmount := initialPaymentAmount },
            itemsPrice := totalAmount, totalPrice := totalAmount,
            paymentDue := totalAmount - initialPaymentAmount,
            isConfirmed := true, isCanceled := false,
            createdAt := now, createdYear := year, createdMonth := month }
        match orderCreate db1 order with
        | (db2, .error e) => (db2, carts, .error e)
        | (db2, .ok order2) =>
          match incLoop db2.products products with
          | (ps2, some e) => ({ db2 with products := ps2 }, carts, .error e)
          | (ps2, none) =>
            let db3 : DB :=
              { db2 with products := ps2,
                         payments :=
                           db2.payments.map
                             (fun q => if q.id == payment.id then
                                { q with order := order2.id } else q) }
            let carts2 :=
              match cartId with
              | some cid => carts.filter (fun c => !(c.id == cid))
              | none => carts
            (db3, carts2, .ok order2)

/-- Embedding of `OrderService.cancelOrder`.  Owner-scoped lookup;
rejects an order whose status is literally `cancelled` (400); rejects
when more than 24 hours elapsed since `createdAt` (403); otherwise
sets `orderStatus := 'cancelled'` via `order.save()` — the
`cancelledAt`/`isCancelled` fields the service also assigns are not
schema paths (the schema spells them `canceledAt`/`isCanceled`) and
strict mode drops them — and then `Payment.create`s the refund for
`paymentInfo.amount * 0.98`.  The refund's save fires the Payment
sync hook, whose `findByIdAndUpdate` carries `orderStatus:
'refunded'`; the restock hook only reacts to an update carrying
`cancelled`, so no stock is ever released, and the order ends with
status `refunded`, not `cancelled`. -/
def cancelOrder (db : DB) (userId orderId : Nat) (now : ℤ) :
    DB × Except Err ℚ :=
  match findOrder db orderId userId with
  | none => (db, .error (.app "Order not found" 404))
  | some order =>
    if order.orderStatus = "cancelled" then
      (db, .error (.app "Order already cancelled" 400))
    else
      let hoursElapsed : ℚ := ((now - order.createdAt : ℤ) : ℚ) / (1000 * 60 * 60)
      if hoursElapsed > 24 then
        (db, .error (.app "Order cancellation period has expired" 403))
      else
        let order1 := { order with orderStatus := "cancelled" }
        let db1 := { db with orders := setOrder db.orders order1 }
        let refundAmount := order.paymentInfo.amount * (98 / 100 : ℚ)
        match paymentCreate db1 userId (some orderId) refundAmount "refunded" "refund" with
        | (db2, .error e) => (db2, .error e)
        | (db2, .ok _) => (db2, .ok refundAmount)

/-- Embedding of `OrderService.completePayment`.  Owner-scoped lookup;
requires `orderStatus == 'delivered'` (400 otherwise); fails 400
"Already fully paid" when `paymentDue == 0`; otherwise zeroes
`paymentDue`, adds the remainder to `paidAmount`, saves, and
`Payment.create`s the final payment — whose save fires the sync hook,
resetting the order's status from `delivered` to `processing`, and
whose persisted document carries no amount (stripped by strict
mode). -/
def completePayment (db : DB) (userId orderId : Nat) :
    DB × Except Err ℚ :=
  match findOrder db orderId userId with
  | none => (db, .error (.app "Order not found" 404))
  | some order =>
    if order.orderStatus ≠ "delivered" then
      (db, .error (.app "Order not delivered yet" 400))
    else if order.paymentDue = 0 then
      (db, .error (.app "Already fully paid" 400))
    else
      let remaining := order.paymentDue
      let order1 :=
        { order with paymentDue := 0,
                     paymentInfo :=
                       { order.paymentInfo with
                           paidAmount := order.paymentInfo.paidAmount + remaining } }
      let db1 := { db with orders := setOrder db.orders order1 }
      match paymentCreate db1 userId (some orderId) remaining "paid" "final" with
      | (db2, .error e) => (db2, .error e)
      | (db2, .ok _) => (db2, .ok remaining)

/-- Document validation of the cart item subdocuments (runs before the
pre-save hooks): quantity at least 1, price at least 0.01. -/
def cartDocValidate (items : List CartItem) : Option Err :=
  match items with
  | [] => none
  | item :: rest =>
    if item.quantity < 1 then some (.validation "Quantity must be at least 1")
    else if item.priceAtAddition < (1 / 100 : ℚ) then
      some (.validation "Price must be at least 0.01")
    else cartDocValidate rest

/-- The `cartSchema.pre('save')` validation hook: every item's product
must exist (404) and hold stock at least the item's quantity (400). -/
def cartStockValidate (ps : List Product) (items : List CartItem) : Option Err :=
  match items with
  | [] => none
  | item :: rest =>
    match findProduct ps item.productId with
    | none => some (.app "Product not found" 404)
    | some product =>
      if product.stock < item.quantity then
        some (.app "Insufficient stock" 400)
      else cartStockValidate ps rest

/-- Embedding of `cart.save()` / `Cart.create` on the items of the
cart being persisted: document validation, then the stock-validation
hook.  Returns the error the save would throw, if any. -/
def cartSave (ps : List Product) (items : List CartItem) : Option Err :=
  match cartDocValidate items with
  | some e => some e
  | none => cartStockValidate ps items

/-- Embedding of `items.splice(itemIndex, 1)`: drop the first cart
item with this product id. -/
def removeFirst : List CartItem → Nat → List CartItem
  | [], _ => []
  | i :: rest, pid =>
    if i.productId == pid then rest else i :: removeFirst rest pid

/-- Embedding of `items[itemIndex].quantity = newQuantity` on the
first cart item with this product id. -/
def setFirstQty : List CartItem → Nat → ℤ → List CartItem
  | [], _, _ => []
  | i :: rest, pid, q =>
    if i.productId == pid then { i with quantity := q } :: rest
    else i :: setFirstQty rest pid q

/-- The item list `updateCartItemQuantity` persists: the first item
with the product id removed when the clamped quantity is 0, updated
to it otherwise. -/
def newCartItems (items : List CartItem) (pid : Nat) (newQuantity : ℤ) :
    List CartItem :=
  if newQuantity = 0 then removeFirst items pid
  else setFirstQty items pid newQuantity

/-- Embedding of `CartService.updateCartItemQuantity`.  The guard is
the source's `if (!quantity || quantity < 0)`: in JavaScript
`!quantity` is true for `quantity == 0`, so a zero quantity is
rejected with 400 "Invalid quantity" before the removal branch can be
reached.  Otherwise the item is located (404 if absent), the product
loaded (404 if absent), the quantity clamped to `Math.min(quantity,
product.stock)`, the item removed when the clamp yields 0 (possible
only when the product stock is 0) or updated in place, and the cart
saved — which re-validates every remaining item against the live
catalog and can throw, leaving the cart unchanged. -/
def updateCartItemQuantity (ps : List Product) (cart : Cart)
    (productId : Nat) (quantity : ℤ) : Except Err Cart :=
  if quantity = 0 ∨ quantity < 0 then .error (.app "Invalid quantity" 400)
  else if cart.items.all (fun i => !(i.productId == productId)) then
    .error (.app "Item not found in cart" 404)
  else
    match findProduct ps productId with
    | none => .error (.app "Product not found" 404)
    | some product =>
      let newQuantity := min quantity product.stock
      let items2 := newCartItems cart.items productId newQuantity
      match cartSave ps items2 with
      | some e => .error e
      | none => .ok { cart with items := items2 }

/-- One step of the guest-item merge loop in `CartService.mergeCarts`:
if the user cart already holds the product, add the guest quantity to
the first matching item; otherwise push the guest item. -/
def addGuestItem (items : List CartItem) (gi : CartItem) : List CartItem :=
  match items with
  | [] => [gi]
  | ui :: rest =>
    if ui.productId == gi.productId then
      { ui with quantity := ui.quantity + gi.quantity } :: rest
    else ui :: addGuestItem rest gi

/-- The `guestCart.items.forEach` loop of `mergeCarts`. -/
def mergeGuestItems (userItems guestItems : List CartItem) : List CartItem :=
  guestItems.foldl addGuestItem userItems

/-- Embedding of `CartService.mergeCarts(userId, guestCartId)`.
Returns early — without deleting anything — when no guest cart id was
supplied, or when the guest cart is missing or has no items.
Otherwise merges the guest items into the user cart (creating the
user cart with the guest items when absent; `newCartId` is the id the
store would assign) and persists it; persisting runs the Cart
schema's save validation against the live catalog and can throw, in
which case nothing is written and the guest cart survives.  Only
after a successful save is the guest cart deleted. -/
def mergeCarts (ps : List Product) (carts : List Cart) (userId : Nat)
    (guestCartId : Option Nat) (newCartId : Nat) :
    List Cart × Except Err String :=
  match guestCartId with
  | none => (carts, .ok "No guest cart to merge")
  | some gid =>
    match carts.find? (fun c => c.id == gid) with
    | none => (carts, .ok "Guest cart is empty")
    | some guestCart =>
      if guestCart.items.isEmpty then (carts, .ok "Guest cart is empty")
      else
        match carts.find? (fun c => c.userId == some userId) with
        | none =>
          match cartSave ps guestCart.items with
          | some e => (carts, .error e)
          | none =>
            ((carts ++ [({ id := newCartId, userId := some userId,
                           items := guestCart.items } : Cart)]).filter
               (fun c => !(c.id == gid)),
             .ok "Cart merged successfully")
        | some userCart =>
          let merged := mergeGuestItems userCart.items guestCart.items
          match cartSave ps merged with
          | some e => (carts, .error e)
          | none =>
            ((carts.map (fun c => if c.id == userCart.id then
                 { userCart with items := merged } else c)).filter
               (fun c => !(c.id == gid)),
             .ok "Cart merged successfully")

/-- Total quantity of a product across a cart's items (each cart holds
at most one item per product in practice; the sum form is exact also
in the presence of duplicates). -/
def cartQty (items : List CartItem) (pid : Nat) : ℤ :=
  ((items.filter (fun i => i.productId == pid)).map CartItem.quantity).sum

/-- The order-document fields read by the two monthly-sales
aggregation pipelines: `$year '$createdAt'`, `$month '$createdAt'`,
`orderStatus`, `paymentDue`, `totalPrice`. -/
structure SalesDoc where
  year : Nat
  month : Nat
  orderStatus : String
  paymentDue : ℚ
  totalPrice : ℚ
deriving Repr, DecidableEq

/-- Per-group `totalSales` of `orderSchema.statics.getMonthlySales`:
`$match { orderStatus: 'delivered' }`, `$group` by
`(year, month)`, `$sum '$totalPrice'`. -/
def modelMonthlyTotal (docs : List SalesDoc) (y m : Nat) : ℚ :=
  ((docs.filter (fun d =>
      d.orderStatus == "delivered" && d.year == y && d.month == m)).map
    SalesDoc.totalPrice).sum

/-- Per-group `total` of `OrderService.getMonthlySales`:
`$match { paymentDue: 0 }`, `$group` by month only,
`$sum '$totalPrice'`. -/
def serviceMonthlyTotal (docs : List SalesDoc) (m : Nat) : ℚ :=
  ((docs.filter (fun d => d.paymentDue == 0 && d.month == m)).map
    SalesDoc.totalPrice).sum

/-! Concrete fixtures around the spec's §8 scenario: one product with
price 50.00, the order item for 3 units of it, and the store states
the claims speak about. -/

/-- The §8 product: stock 10, sold 0, price 50, active. -/
def prodW : Product :=
  { id := 1, name := "widget", price := 50, stock := 10, sold := 0, isActive := true }

/-- Order item for 3 units of the §8 product at price 50. -/
def itemW : OrderItem :=
  { product := 1, name := "widget", quantity := 3, price := 50 }

/-- Store holding only the §8 product. -/
def dbW : DB :=
  { products := [prodW], orders := [], payments := [],
    nextPaymentId := 100, nextOrderId := 200 }

/-- The state the spec expects right after the §8 order: the product
with stock 7 and sold 3. -/
def prodAfter : Product :=
  { id := 1, name := "widget", price := 50, stock := 7, sold := 3, isActive := true }

/-- The §8 order as a persisted document (id 9, owner 7, status
`processing`, initial payment 75, `paymentDue` 75, created at time
0). -/
def orderAfter : Order :=
  { id := 9, user := 7, orderItems := [itemW], orderStatus := "processing",
    paymentInfo := { method := "card", status := "paid", amount := 75, paidAmount := 75 },
    itemsPrice := 150, totalPrice := 150, paymentDue := 75,
    isConfirmed := true, isCanceled := false,
    createdAt := 0, createdYear := 2024, createdMonth := 5 }

/-- Store as the spec expects it right after the §8 order: product at
stock 7 / sold 3, the order, and its initial payment document. -/
def dbAfter : DB :=
  { products := [prodAfter], orders := [orderAfter],
    payments := [{ id := 100, order := 9, user := 7, status := "paid" }],
    nextPaymentId := 101, nextOrderId := 10 }

/-- The §8 store with the order delivered and the second half (75)
still due. -/
def dbDelivered : DB :=
  { dbAfter with orders := [{ orderAfter with orderStatus := "delivered" }] }

/-- The §8 store with the order delivered and fully paid. -/
def dbPaid : DB :=
  { dbAfter with
      orders := [{ orderAfter with orderStatus := "delivered", paymentDue := 0 }] }

/-- Every path of `createOrder` returns an error and the unchanged
store: the cart-resolution failures are read-only, and otherwise the
initial `Payment.create` — which carries no `order` reference —
fails the Payment model's validation before anything is persisted. -/
theorem createOrder_always_errors (db : DB) (u : Nat) (ps : List OrderItem)
    (cid : Option Nat) (a : ℚ) (now : ℤ) (y m : Nat) (carts : List Cart) :
    ∃ e, createOrder db u ps cid a now y m carts = (db, carts, Except.error e) := by
  simp only [createOrder]
  split
  · exact ⟨_, rfl⟩
  · split
    · exact ⟨_, rfl⟩
    · simp only [paymentCreate]
      exact ⟨_, rfl⟩

/-- C1: the claim quantifies over orders successfully created by
`createOrder` and requires no partial reservation on failure.  The
real `createOrder` never succeeds: its first persistent step, the
initial `Payment.create`, lacks the required `order` reference and is
rejected by document validation (which runs before any pre-save
hook), so every call fails with the store and carts exactly as given
— every successfully created order satisfies the reservation
equations vacuously, and no failure leaves a partial reservation
behind. -/
theorem createOrder_vacuous_no_partial_reservation (db : DB) (u : Nat)
    (ps : List OrderItem) (cid : Option Nat) (a : ℚ) (now : ℤ)
    (y m : Nat) (carts : List Cart) :
    (createOrder db u ps cid a now y m carts).1 = db ∧
    (createOrder db u ps cid a now y m carts).2.1 = carts ∧
    (createOrder db u ps cid a now y m carts).2.2.isOk = false := by
  obtain ⟨e, he⟩ := createOrder_always_errors db u ps cid a now y m carts
  rw [he]
  exact ⟨rfl, rfl, rfl⟩

/-- C2: the claim says cancelling within 24 hours restores stock and
sold to their pre-order values (10 and 0 in the §8 scenario), sets
`orderStatus` to `cancelled`, and creates a refund Payment of 0.98 ×
the amount paid.  Evaluating `cancelOrder` one hour after the §8
order: the call returns the computed 73.5, but the product stays at
stock 7 / sold 3 (the restock hook reacts only to an update carrying
`cancelled`, and the Payment sync hook's update carries `refunded`),
the order ends with status `refunded`, not `cancelled`, and the
persisted refund document carries no amount at all — the Payment
schema has no top-level amount path and strict mode drops the field. -/
theorem cancelOrder_does_not_restock :
    (cancelOrder dbAfter 7 9 3600000).2 = Except.ok (147 / 2) ∧
    (cancelOrder dbAfter 7 9 3600000).1.products = [prodAfter] ∧
    (cancelOrder dbAfter 7 9 3600000).1.orders.map Order.orderStatus = ["refunded"] ∧
    (cancelOrder dbAfter 7 9 3600000).1.payments =
      [{ id := 100, order := 9, user := 7, status := "paid" },
       { id := 101, order := 9, user := 7, status := "refunded" }] ∧
    ¬ (prodAfter.stock = 10 ∧ prodAfter.sold = 0) := by
  refine ⟨by with_unfolding_all rfl, by with_unfolding_all rfl,
          by with_unfolding_all rfl, by with_unfolding_all rfl, by decide⟩

/-- C3 counterexample: the claim says a caller-supplied initial
payment below 50% of the total makes `createOrder` fail with an
InsufficientPayment error.  Supplying 0 — far below half of the 150
total — the call indeed fails and mutates nothing, but the error is
the Payment model's ValidationError (`order` is required and the
service omits it), not an insufficient-payment error; no such error
path exists in the source. -/
theorem createOrder_low_payment_fails_validation_cex :
    (0 : ℚ) < 75 ∧
    createOrder dbW 7 [itemW] none 0 0 2024 5 [] =
      (dbW, [], .error (.validation "Payment must belong to an order")) := by
  refine ⟨by norm_num, by with_unfolding_all rfl⟩

/-- C3 amended: every `createOrder` call with a non-empty product
list fails — regardless of the caller-supplied initial payment
amount, which the source never reads — with the ValidationError from
the initial `Payment.create`, and no order, payment, or stock
mutation occurs. -/
theorem createOrder_always_fails_payment_validation (db : DB) (u : Nat)
    (ps : List OrderItem) (cid : Option Nat) (a : ℚ) (now : ℤ)
    (y m : Nat) (carts : List Cart) (hne : ¬ ps = []) :
    createOrder db u ps cid a now y m carts =
      (db, carts, .error (.validation "Payment must belong to an order")) := by
  have h1 : ps.isEmpty = false := by
    cases ps with
    | nil => exact absurd rfl hne
    | cons x xs => rfl
  simp [createOrder, paymentCreate, h1]

/-- Witness for the C3 amended theorem: the §8 call with supplied
amount 0 (below half) fails with the Payment validation error and
changes nothing. -/
theorem createOrder_always_fails_payment_validation_witness :
    createOrder dbW 7 [itemW] none 0 0 2024 5 [] =
      (dbW, [], .error (.validation "Payment must belong to an order")) :=
  createOrder_always_fails_payment_validation dbW 7 [itemW] none 0 0 2024 5 []
    (by decide)

/-- C4: the claim says that on a delivered, partly-paid order,
`completePayment` zeroes `paymentDue` and creates one Payment whose
amount equals the prior `paymentDue`.  Evaluating at the delivered §8
order (due 75): the call returns 75 and zeroes `paymentDue`, but the
persisted final Payment carries no amount (the Payment schema has no
top-level amount path; strict mode drops the field) and the Payment
sync hook resets the order's status from `delivered` to `processing`.
The two error branches of the claim are faithful: a non-delivered
order fails 400, and a delivered fully-paid order fails 400 "Already
fully paid", both leaving the store unchanged. -/
theorem completePayment_strips_amount_and_regresses_status :
    (completePayment dbDelivered 7 9).2 = Except.ok 75 ∧
    (completePayment dbDelivered 7 9).1.orders.map Order.paymentDue = [0] ∧
    (completePayment dbDelivered 7 9).1.orders.map Order.orderStatus = ["processing"] ∧
    (completePayment dbDelivered 7 9).1.payments =
      [{ id := 100, order := 9, user := 7, status := "paid" },
       { id := 101, order := 9, user := 7, status := "paid" }] ∧
    completePayment dbAfter 7 9 =
      (dbAfter, .error (.app "Order not delivered yet" 400)) ∧
    completePayment dbPaid 7 9 =
      (dbPaid, .error (.app "Already fully paid" 400)) := by
  refine ⟨by with_unfolding_all rfl, by with_unfolding_all rfl,
          by with_unfolding_all rfl, by with_unfolding_all rfl,
          by with_unfolding_all rfl, by with_unfolding_all rfl⟩

/-- C8: cancelling a non-cancelled order more than 24 hours after its
`createdAt` fails with the 403 cancellation-window error and returns
the store unchanged (same products, orders and payments). -/
theorem cancelOrder_window_expired (db : DB) (u oid : Nat) (now : ℤ)
    (order : Order)
    (h : findOrder db oid u = some order)
    (hnc : ¬ order.orderStatus = "cancelled")
    (hold : 24 * (1000 * 60 * 60) < now - order.createdAt) :
    cancelOrder db u oid now =
      (db, .error (.app "Order cancellation period has expired" 403)) := by
  have hq : (24 : ℚ) < ((now : ℚ) - (order.createdAt : ℚ)) / (1000 * 60 * 60) := by
    rw [lt_div_iff₀ (by norm_num : (0 : ℚ) < 1000 * 60 * 60)]
    exact_mod_cast hold
  simp [cancelOrder, h, hnc, hq]

/-- Witness for C8: an order created at time 0 and cancelled 25 hours
later (90000000 ms) is rejected with the 403 window error and the
store is unchanged. -/
theorem cancelOrder_window_expired_witness :
    cancelOrder dbAfter 7 9 90000000 =
      (dbAfter, .error (.app "Order cancellation period has expired" 403)) :=
  cancelOrder_window_expired dbAfter 7 9 90000000 orderAfter
    (by decide) (by decide) (by decide)

/-- C9: a caller who does not own the order — any caller, an admin
included: neither operation takes a role — gets a 404 "Order not
found" from both `cancelOrder` and `completePayment`, not a 403,
because both look the order up by the pair (orderId, userId). -/
theorem foreign_order_not_found (db : DB) (u oid : Nat) (now : ℤ)
    (h : ∀ o ∈ db.orders, o.id = oid → ¬ o.user = u) :
    cancelOrder db u oid now = (db, .error (.app "Order not found" 404)) ∧
    completePayment db u oid = (db, .error (.app "Order not found" 404)) := by
  have hf : findOrder db oid u = none := by
    unfold findOrder
    rw [List.find?_eq_none]
    intro o ho
    by_cases hid : o.id = oid
    · simp [hid, h o ho hid]
    · simp [hid]
  exact ⟨by simp [cancelOrder, hf], by simp [completePayment, hf]⟩

/-- Witness for C9: user 8 calling on user 7's order gets 404 from
both operations. -/
theorem foreign_order_not_found_witness :
    cancelOrder dbAfter 8 9 0 = (dbAfter, .error (.app "Order not found" 404)) ∧
    completePayment dbAfter 8 9 = (dbAfter, .error (.app "Order not found" 404)) :=
  foreign_order_not_found dbAfter 8 9 0 (by decide)

/-- C10 counterexample: the claim concludes that repeated cancellation
creates at most one refund Payment.  Starting from the §8 state,
cancelling twice within the window: the first cancel leaves the order
with status `refunded` (set by the Payment sync hook), so the
already-cancelled guard — which compares against the literal
`cancelled` — does not fire on the second call; it succeeds too, and
the store ends with two refund Payments. -/
theorem cancelOrder_repeat_refunds_cex :
    (cancelOrder (cancelOrder dbAfter 7 9 3600000).1 7 9 7200000).2 =
      Except.ok (147 / 2) ∧
    (cancelOrder (cancelOrder dbAfter 7 9 3600000).1 7 9 7200000).1.payments.map
        Payment.status = ["paid", "refunded", "refunded"] := by
  refine ⟨by with_unfolding_all rfl, by with_unfolding_all rfl⟩

/-- C10 amended: the guard blocks a further call only when the
order's status is literally `cancelled` — then it fails 400 before
any mutation, with no refund.  But a successful cancellation leaves
the order with status `refunded` (the Payment sync hook overwrites
the `cancelled` the service saved), so the guard does not block
repeated cancellation: each within-window repeat succeeds and
creates another refund Payment, as the two concrete conjuncts show. -/
theorem cancelOrder_guard_only_literal_cancelled (db : DB) (u oid : Nat)
    (now : ℤ) (order : Order)
    (h : findOrder db oid u = some order)
    (hc : order.orderStatus = "cancelled") :
    cancelOrder db u oid now = (db, .error (.app "Order already cancelled" 400)) ∧
    (cancelOrder dbAfter 7 9 3600000).1.orders.map Order.orderStatus = ["refunded"] ∧
    ((cancelOrder (cancelOrder dbAfter 7 9 3600000).1 7 9 7200000).1.payments.filter
        (fun p => p.status == "refunded")).length = 2 := by
  refine ⟨by simp [cancelOrder, h, hc], by with_unfolding_all rfl,
          by with_unfolding_all rfl⟩

/-- Witness for the C10 amended theorem: a literally-cancelled §8
order is rejected with 400 and nothing changes. -/
theorem cancelOrder_guard_only_literal_cancelled_witness :
    cancelOrder
        { dbAfter with orders := [{ orderAfter with orderStatus := "cancelled" }] }
        7 9 3600000 =
      ({ dbAfter with orders := [{ orderAfter with orderStatus := "cancelled" }] },
       .error (.app "Order already cancelled" 400)) ∧
    (cancelOrder dbAfter 7 9 3600000).1.orders.map Order.orderStatus = ["refunded"] ∧
    ((cancelOrder (cancelOrder dbAfter 7 9 3600000).1 7 9 7200000).1.payments.filter
        (fun p => p.status == "refunded")).length = 2 :=
  cancelOrder_guard_only_literal_cancelled
    { dbAfter with orders := [{ orderAfter with orderStatus := "cancelled" }] }
    7 9 3600000 { orderAfter with orderStatus := "cancelled" }
    (by decide) (by decide)

/-- C5 counterexample: the claim says the model projection (matching
`orderStatus == 'delivered'`) and the service projection (matching
`paymentDue == 0`) select the same orders and return equal per-month
totals.  A single order with status `processing` and `paymentDue = 0`
is selected by the service pipeline (total 100 for its month) but not
by the model pipeline (total 0), at the order's own year. -/
theorem monthlySales_predicates_differ_cex :
    serviceMonthlyTotal [{ year := 2024, month := 5, orderStatus := "processing",
                           paymentDue := 0, totalPrice := 100 }] 5 = 100 ∧
    modelMonthlyTotal [{ year := 2024, month := 5, orderStatus := "processing",
                         paymentDue := 0, totalPrice := 100 }] 2024 5 = 0 ∧
    ¬ (100 : ℚ) = 0 := by
  refine ⟨by with_unfolding_all rfl, by with_unfolding_all rfl, by norm_num⟩

/-- C5 amended: the two monthly-sales pipelines differ in both their
match predicate (`orderStatus == 'delivered'` vs `paymentDue == 0`)
and their grouping key ((year, month) vs month alone); they return
equal per-month totals on a collection in which every order satisfies
`orderStatus = 'delivered' ↔ paymentDue = 0` and all orders lie in
one year. -/
theorem monthlySales_agree_on_consistent_orders (docs : List SalesDoc)
    (y m : Nat)
    (h1 : ∀ d ∈ docs, (d.orderStatus = "delivered" ↔ d.paymentDue = 0))
    (h2 : ∀ d ∈ docs, d.year = y) :
    serviceMonthlyTotal docs m = modelMonthlyTotal docs y m := by
  unfold serviceMonthlyTotal modelMonthlyTotal
  have hfil : docs.filter (fun d => d.paymentDue == 0 && d.month == m) =
      docs.filter (fun d => d.orderStatus == "delivered" && d.year == y && d.month == m) := by
    apply List.filter_congr
    intro d hd
    have hiff := h1 d hd
    have hy : (d.year == y) = true := by simp [h2 d hd]
    by_cases hpd : d.paymentDue = 0
    · have h1b : (d.paymentDue == 0) = true := by simp [hpd]
      have h2b : (d.orderStatus == "delivered") = true := by simp [hiff.mpr hpd]
      rw [h1b, h2b, hy]
      simp
    · have hst : ¬ d.orderStatus = "delivered" := fun hs => hpd (hiff.mp hs)
      have h1b : (d.paymentDue == 0) = false := by simp [hpd]
      have h2b : (d.orderStatus == "delivered") = false := by simp [hst]
      rw [h1b, h2b]
      simp
  rw [hfil]

/-- Witness for the C5 amended theorem: on one delivered, fully-paid
order the two pipelines agree for its month and year. -/
theorem monthlySales_agree_on_consistent_orders_witness :
    serviceMonthlyTotal [{ year := 2024, month := 5, orderStatus := "delivered",
                           paymentDue := 0, totalPrice := 100 }] 5 =
      modelMonthlyTotal [{ year := 2024, month := 5, orderStatus := "delivered",
                           paymentDue := 0, totalPrice := 100 }] 2024 5 :=
  monthlySales_agree_on_consistent_orders
    [{ year := 2024, month := 5, orderStatus := "delivered",
       paymentDue := 0, totalPrice := 100 }] 2024 5
    (by decide) (by decide)

/-- Unfolding of `cartQty` over a cons cell. -/
theorem cartQty_cons (i : CartItem) (rest : List CartItem) (pid : Nat) :
    cartQty (i :: rest) pid =
      (if i.productId == pid then i.quantity else 0) + cartQty rest pid := by
  unfold cartQty
  by_cases h : (i.productId == pid) = true
  · simp [List.filter_cons, h]
  · simp [List.filter_cons, h]

/-- One guest item folded into the user items adds exactly its
quantity to the total for its product and nothing to any other. -/
theorem cartQty_addGuestItem (items : List CartItem) (gi : CartItem) (pid : Nat) :
    cartQty (addGuestItem items gi) pid =
      cartQty items pid + (if gi.productId == pid then gi.quantity else 0) := by
  induction items with
  | nil =>
    unfold addGuestItem
    rw [cartQty_cons]
    by_cases h : (gi.productId == pid) = true <;> simp [h, cartQty]
  | cons ui rest ih =>
    unfold addGuestItem
    by_cases h : (ui.productId == gi.productId) = true
    · rw [if_pos h, cartQty_cons, cartQty_cons]
      have hpq : ui.productId = gi.productId := by simpa using h
      by_cases h2 : (ui.productId == pid) = true
      · have h3 : (gi.productId == pid) = true := by
          rw [← hpq]; exact h2
        simp [h2, h3]
        ring
      · have h3 : (gi.productId == pid) = false := by
          rw [← hpq]; simpa using h2
        simp [h2, h3]
    · rw [if_neg h, cartQty_cons, cartQty_cons, ih]
      ring

/-- The guest-item merge loop is additive on per-product quantities. -/
theorem cartQty_mergeGuestItems (userItems guestItems : List CartItem) (pid : Nat) :
    cartQty (mergeGuestItems userItems guestItems) pid =
      cartQty userItems pid + cartQty guestItems pid := by
  induction guestItems generalizing userItems with
  | nil => simp [mergeGuestItems, cartQty]
  | cons g gs ih =>
    unfold mergeGuestItems at ih ⊢
    simp only [List.foldl_cons]
    rw [ih, cartQty_addGuestItem, cartQty_cons]
    ring

/-- A filtered cart list satisfies the filtering predicate. -/
theorem all_not_id_filter (l : List Cart) (gid : Nat) :
    ((l.filter (fun c => !(c.id == gid))).all (fun c => !(c.id == gid))) = true := by
  rw [List.all_eq_true]
  intro c hc
  exact (List.mem_filter.mp hc).2

/-- C6 counterexample: the claim says the guest cart is deleted in
every case, including when it is empty.  Merging an existing empty
guest cart returns with "Guest cart is empty" and the guest cart is
still present in the store. -/
theorem mergeCarts_keeps_empty_guest_cart_cex :
    mergeCarts [] [{ id := 5, userId := none, items := [] }] 7 (some 5) 99 =
      ([{ id := 5, userId := none, items := [] }], .ok "Guest cart is empty") := by
  with_unfolding_all rfl

/-- C6 amended: when the guest cart exists and is non-empty, any
successful merge — one where persisting the merged cart passes the
Cart schema's product/stock save validation — deletes the guest cart
(no cart with its id remains, whether the user cart existed or was
created), and the merge loop is additive: for every product, the
merged quantity is the user-cart quantity plus the guest-cart
quantity.  When the save validation throws, the cart collection is
returned unchanged and the guest cart survives; and when the guest
cart is empty or missing the call is a no-op that does not delete
it. -/
theorem mergeCarts_adds_quantities_and_deletes_guest
    (ps : List Product) (carts : List Cart) (userId gid newCartId pid : Nat)
    (guest : Cart) (userItems : List CartItem)
    (hg : carts.find? (fun c => c.id == gid) = some guest)
    (hne : ¬ guest.items = []) :
    (∀ carts2 msg, mergeCarts ps carts userId (some gid) newCartId =
        (carts2, Except.ok msg) →
      (carts2.all (fun c => !(c.id == gid))) = true) ∧
    (∀ carts2 e, mergeCarts ps carts userId (some gid) newCartId =
        (carts2, Except.error e) →
      carts2 = carts) ∧
    cartQty (mergeGuestItems userItems guest.items) pid =
      cartQty userItems pid + cartQty guest.items pid := by
  have hne' : guest.items.isEmpty = false := by
    cases h : guest.items with
    | nil => exact absurd h hne
    | cons a l => rfl
  refine ⟨?_, ?_, cartQty_mergeGuestItems userItems guest.items pid⟩
  · intro carts2 msg hm
    unfold mergeCarts at hm
    simp only [hg, hne', Bool.false_eq_true, if_false] at hm
    split at hm
    · split at hm
      · simp at hm
      · rw [Prod.mk.injEq] at hm
        rw [← hm.1]
        exact all_not_id_filter _ gid
    · split at hm
      · simp at hm
      · rw [Prod.mk.injEq] at hm
        rw [← hm.1]
        exact all_not_id_filter _ gid
  · intro carts2 e hm
    unfold mergeCarts at hm
    simp only [hg, hne', Bool.false_eq_true, if_false] at hm
    split at hm
    · split at hm
      · rw [Prod.mk.injEq] at hm
        exact hm.1.symm
      · simp at hm
    · split at hm
      · rw [Prod.mk.injEq] at hm
        exact hm.1.symm
      · simp at hm

/-- Witness for the C6 amended theorem: a guest cart with 2 units of
product 1 merged into a store whose user cart holds 3 units of
product 1 (stock 10, so the save validates) — the instantiated
conclusions, quantity additivity (3 + 2) included. -/
theorem mergeCarts_adds_quantities_and_deletes_guest_witness :
    (∀ carts2 msg, mergeCarts [prodW]
        [{ id := 5, userId := none,
           items := [{ productId := 1, name := "widget", quantity := 2,
                       priceAtAddition := 50 }] },
         { id := 6, userId := some 7,
           items := [{ productId := 1, name := "widget", quantity := 3,
                       priceAtAddition := 50 }] }]
        7 (some 5) 99 = (carts2, Except.ok msg) →
      (carts2.all (fun c => !(c.id == 5))) = true) ∧
    (∀ carts2 e, mergeCarts [prodW]
        [{ id := 5, userId := none,
           items := [{ productId := 1, name := "widget", quantity := 2,
                       priceAtAddition := 50 }] },
         { id := 6, userId := some 7,
           items := [{ productId := 1, name := "widget", quantity := 3,
                       priceAtAddition := 50 }] }]
        7 (some 5) 99 = (carts2, Except.error e) →
      carts2 =
        [{ id := 5, userId := none,
           items := [{ productId := 1, name := "widget", quantity := 2,
                       priceAtAddition := 50 }] },
         { id := 6, userId := some 7,
           items := [{ productId := 1, name := "widget", quantity := 3,
                       priceAtAddition := 50 }] }]) ∧
    cartQty
        (mergeGuestItems
          [{ productId := 1, name := "widget", quantity := 3, priceAtAddition := 50 }]
          [{ productId := 1, name := "widget", quantity := 2, priceAtAddition := 50 }]) 1 =
      cartQty [{ productId := 1, name := "widget", quantity := 3, priceAtAddition := 50 }] 1 +
      cartQty [{ productId := 1, name := "widget", quantity := 2, priceAtAddition := 50 }] 1 :=
  mergeCarts_adds_quantities_and_deletes_guest [prodW]
    [{ id := 5, userId := none,
       items := [{ productId := 1, name := "widget", quantity := 2,
                   priceAtAddition := 50 }] },
     { id := 6, userId := some 7,
       items := [{ productId := 1, name := "widget", quantity := 3,
                   priceAtAddition := 50 }] }]
    7 5 99 1
    { id := 5, userId := none,
      items := [{ productId := 1, name := "widget", quantity := 2,
                  priceAtAddition := 50 }] }
    [{ productId := 1, name := "widget", quantity := 3, priceAtAddition := 50 }]
    (by decide) (by decide)

/-- A product absent from every item contributes zero quantity. -/
theorem cartQty_eq_zero_of_not_mem (items : List CartItem) (pid : Nat)
    (h : ∀ i ∈ items, ¬ i.productId = pid) : cartQty items pid = 0 := by
  induction items with
  | nil => simp [cartQty]
  | cons i rest ih =>
    rw [cartQty_cons]
    have hi : (i.productId == pid) = false := by simp [h i (by simp)]
    rw [hi]
    simp only [Bool.false_eq_true, if_false, zero_add]
    exact ih (fun j hj => h j (by simp [hj]))

/-- Dropping the first item of a product removes its whole quantity
when product ids are distinct. -/
theorem cartQty_removeFirst (items : List CartItem) (pid : Nat)
    (hnodup : (items.map CartItem.productId).Nodup) :
    cartQty (removeFirst items pid) pid = 0 := by
  induction items with
  | nil => simp [removeFirst, cartQty]
  | cons i rest ih =>
    have hnd : (∀ x ∈ rest, ¬ x.productId = i.productId) ∧
        (List.map CartItem.productId rest).Nodup := by simpa using hnodup
    unfold removeFirst
    by_cases h : (i.productId == pid) = true
    · rw [if_pos h]
      have hpid : i.productId = pid := by simpa using h
      exact cartQty_eq_zero_of_not_mem rest pid
        (fun j hj hc => hnd.1 j hj (by rw [hc, hpid]))
    · rw [if_neg h, cartQty_cons]
      have hb : (i.productId == pid) = false := by
        cases hx : (i.productId == pid) with
        | true => exact absurd hx h
        | false => rfl
      rw [hb]
      simp only [Bool.false_eq_true, if_false, zero_add]
      exact ih hnd.2

/-- Setting the quantity of the first item of a product sets its
whole quantity when product ids are distinct and the item exists. -/
theorem cartQty_setFirstQty (items : List CartItem) (pid : Nat) (q : ℤ)
    (hnodup : (items.map CartItem.productId).Nodup)
    (hmem : ∃ i ∈ items, i.productId = pid) :
    cartQty (setFirstQty items pid q) pid = q := by
  induction items with
  | nil => rcases hmem with ⟨i, hi, _⟩; cases hi
  | cons i rest ih =>
    have hnd : (∀ x ∈ rest, ¬ x.productId = i.productId) ∧
        (List.map CartItem.productId rest).Nodup := by simpa using hnodup
    unfold setFirstQty
    by_cases h : (i.productId == pid) = true
    · rw [if_pos h, cartQty_cons]
      have hpid : i.productId = pid := by simpa using h
      have h0 : cartQty rest pid = 0 :=
        cartQty_eq_zero_of_not_mem rest pid
          (fun j hj hc => hnd.1 j hj (by rw [hc, hpid]))
      simp [h, h0]
    · rw [if_neg h, cartQty_cons]
      have hb : (i.productId == pid) = false := by
        cases hx : (i.productId == pid) with
        | true => exact absurd hx h
        | false => rfl
      rw [hb]
      simp only [Bool.false_eq_true, if_false, zero_add]
      refine ih hnd.2 ?_
      rcases hmem with ⟨j, hj, hjp⟩
      rcases List.mem_cons.mp hj with hj1 | hj2
      · exact absurd (by rw [hj1] at hjp; simp [hjp]) h
      · exact ⟨j, hj2, hjp⟩

/-- C7 counterexample: the claim says updating a present item with
quantity 0 removes the item rather than failing.  With product 1 in
the cart (quantity 2), the call with quantity 0 fails with 400
"Invalid quantity" — the JavaScript guard `!quantity` is true for 0 —
and the cart keeps the item. -/
theorem updateCartItemQuantity_zero_rejected_cex :
    (([{ productId := 1, name := "widget", quantity := 2,
         priceAtAddition := 50 }] : List CartItem).any
        (fun i => i.productId == 1)) = true ∧
    updateCartItemQuantity [prodW]
        { id := 3, userId := none,
          items := [{ productId := 1, name := "widget", quantity := 2,
                      priceAtAddition := 50 }] } 1 0 =
      .error (.app "Invalid quantity" 400) := by
  exact ⟨by decide, by with_unfolding_all rfl⟩

/-- C7 amended: quantity 0 is rejected with 400 "Invalid quantity"
(never a removal); a positive quantity on a product absent from the
cart fails 404 "Item not found in cart"; and a positive quantity on a
present product, in a distinct-product cart whose updated item list
passes the Cart schema's save validation, succeeds with the product's
total quantity at `min quantity product.stock` — the item being
removed exactly when that clamp is 0, which happens only when the
product's stock is 0.  When the save validation throws (for example
because another cart item now exceeds its product's stock), the call
fails instead. -/
theorem updateCartItemQuantity_amended (ps : List Product)
    (cart cartAbsent : Cart) (pid : Nat) (q : ℤ) (product : Product)
    (hnodup : (cart.items.map CartItem.productId).Nodup)
    (hq : 0 < q)
    (hmem : ∃ i ∈ cart.items, i.productId = pid)
    (habs : ∀ i ∈ cartAbsent.items, ¬ i.productId = pid)
    (hp : findProduct ps pid = some product)
    (hsave : cartSave ps (newCartItems cart.items pid (min q product.stock)) = none) :
    updateCartItemQuantity ps cart pid 0 = .error (.app "Invalid quantity" 400) ∧
    updateCartItemQuantity ps cartAbsent pid q =
      .error (.app "Item not found in cart" 404) ∧
    (updateCartItemQuantity ps cart pid q).map (fun c => cartQty c.items pid) =
      .ok (min q product.stock) := by
  have hguard : ¬ (q = 0 ∨ q < 0) := by omega
  refine ⟨by simp [updateCartItemQuantity], ?_, ?_⟩
  · have hall : (cartAbsent.items.all (fun i => !(i.productId == pid))) = true := by
      rw [List.all_eq_true]
      intro i hi
      simp [habs i hi]
    simp [updateCartItemQuantity, hguard, hall]
  · have hall : ¬ (cart.items.all (fun i => !(i.productId == pid))) = true := by
      rcases hmem with ⟨i, hi, hip⟩
      rw [List.all_eq_true]
      push_neg
      exact ⟨i, hi, by simp [hip]⟩
    have hqty : cartQty (newCartItems cart.items pid (min q product.stock)) pid =
        min q product.stock := by
      unfold newCartItems
      by_cases hz : min q product.stock = 0
      · rw [if_pos hz, hz]
        exact cartQty_removeFirst cart.items pid hnodup
      · rw [if_neg hz]
        exact cartQty_setFirstQty cart.items pid (min q product.stock) hnodup hmem
    simp [updateCartItemQuantity, hguard, hall, hp, hsave, Except.map, hqty]

/-- Witness for the C7 amended theorem: cart holding 2 units of
product 1 (stock 10), update with quantity 25 — clamped to 10, and
the saved cart validates; an empty cart rejects the same update with
404; quantity 0 is rejected with 400. -/
theorem updateCartItemQuantity_amended_witness :
    updateCartItemQuantity [prodW]
        { id := 3, userId := none,
          items := [{ productId := 1, name := "widget", quantity := 2,
                      priceAtAddition := 50 }] } 1 0 =
      .error (.app "Invalid quantity" 400) ∧
    updateCartItemQuantity [prodW] { id := 4, userId := none, items := [] } 1 25 =
      .error (.app "Item not found in cart" 404) ∧
    (updateCartItemQuantity [prodW]
        { id := 3, userId := none,
          items := [{ productId := 1, name := "widget", quantity := 2,
                      priceAtAddition := 50 }] } 1 25).map
        (fun c => cartQty c.items 1) =
      .ok (min 25 prodW.stock) :=
  updateCartItemQuantity_amended [prodW]
    { id := 3, userId := none,
      items := [{ productId := 1, name := "widget", quantity := 2,
                  priceAtAddition := 50 }] }
    { id := 4, userId := none, items := [] } 1 25 prodW
    (by decide) (by decide) (by decide) (by decide) (by decide)
    (by with_unfolding_all rfl)

end ECom
